import Mathlib

/-!
Verification development for the PostgreSQL handler
(mindsdb/integrations/handlers/postgres_handler/postgres_handler.py).

The Python source is shallowly embedded: pure helpers become Lean
functions; code that talks to the database is modelled by explicit
state passing plus an environment value recording the outcome of each
database call, and every function that can raise returns an value of
type Except.  Cell values flowing through pandas are modelled by the
inductive type PGValue (SQL NULL, integers, strings, booleans; floating
point columns carry integral test values only, since their bit-level
behaviour is irrelevant to the properties below).
-/

set_option autoImplicit false

namespace PostgresHandlerVerification

/-- The members of the canonical MySQL-side type enum
(MYSQL_DATA_TYPE) that the handler references. -/
inductive MYSQL_DATA_TYPE where
  | SMALLINT
  | INT
  | MEDIUMINT
  | BIGINT
  | TINYINT
  | FLOAT
  | DOUBLE
  | DECIMAL
  | VARCHAR
  | TEXT
  | DATETIME
  | DATE
  | TIME
  | BOOL
  | BOOLEAN
  | BINARY
  deriving DecidableEq, Repr

/-- The ordered type-mapping table of `_map_type` (the Python dict with
tuple keys iterates in insertion order; the duplicated bpchar entry of
the source is kept verbatim). -/
def types_map : List (List String × MYSQL_DATA_TYPE) :=
  [ (["smallint", "smallserial"], MYSQL_DATA_TYPE.SMALLINT),
    (["integer", "int", "serial"], MYSQL_DATA_TYPE.INT),
    (["bigint", "bigserial"], MYSQL_DATA_TYPE.BIGINT),
    (["real", "float"], MYSQL_DATA_TYPE.FLOAT),
    (["numeric", "decimal"], MYSQL_DATA_TYPE.DECIMAL),
    (["double precision"], MYSQL_DATA_TYPE.DOUBLE),
    (["character varying", "varchar"], MYSQL_DATA_TYPE.VARCHAR),
    (["money", "character", "char", "bpchar", "bpchar", "text"], MYSQL_DATA_TYPE.TEXT),
    (["timestamp", "timestamp without time zone", "timestamp with time zone"],
      MYSQL_DATA_TYPE.DATETIME),
    (["date"], MYSQL_DATA_TYPE.DATE),
    (["time", "time without time zone", "time with time zone"], MYSQL_DATA_TYPE.TIME),
    (["boolean"], MYSQL_DATA_TYPE.BOOL),
    (["bytea"], MYSQL_DATA_TYPE.BINARY) ]

/-- Python str.lower on one character, for the ASCII letters that occur in
type identifiers (identity elsewhere). -/
def pyCharLower (c : Char) : Char :=
  if 65 ≤ c.toNat ∧ c.toNat ≤ 90 then Char.ofNat (c.toNat + 32) else c

/-- Python str.lower, the `internal_type_name.lower()` call of `_map_type`. -/
def pyLower (s : String) : String := ⟨s.data.map pyCharLower⟩

/-- The `for db_types_list, mysql_data_type in types_map.items()` loop of
`_map_type`: first rule whose identifier list contains the key wins. -/
def firstMatch : List (List String × MYSQL_DATA_TYPE) → String → Option MYSQL_DATA_TYPE
  | [], _ => none
  | (names, t) :: rest, s => if s ∈ names then some t else firstMatch rest s

/-- `_map_type(internal_type_name)`: `None` falls back to VARCHAR, otherwise
the lower-cased name is looked up in `types_map` in order, VARCHAR on no
match. -/
def _map_type : Option String → MYSQL_DATA_TYPE
  | none => MYSQL_DATA_TYPE.VARCHAR
  | some s =>
    match firstMatch types_map (pyLower s) with
    | some t => t
    | none => MYSQL_DATA_TYPE.VARCHAR

theorem firstMatch_complete :
    ∀ p ∈ types_map, ∀ k ∈ p.1, firstMatch types_map k = some p.2 := by
  decide

theorem firstMatch_none_of_not_mem :
    ∀ (l : List (List String × MYSQL_DATA_TYPE)) (k : String),
      (∀ p ∈ l, k ∉ p.1) → firstMatch l k = none := by
  intro l
  induction l with
  | nil => intro k _; rfl
  | cons hd tl ih =>
      intro k h
      have hhd : k ∉ hd.1 := h hd (List.mem_cons_self hd tl)
      have htl : ∀ p ∈ tl, k ∉ p.1 := fun p hp => h p (List.mem_cons_of_mem hd hp)
      cases hd with
      | mk names t =>
          simp only [firstMatch, if_neg hhd]
          exact ih k htl

/-- C7: `_map_type` is total: every identifier listed in the mapping table is
mapped to its documented canonical type regardless of letter case, every
unlisted identifier is mapped to the VARCHAR fallback, and `None` is mapped
to the VARCHAR fallback. -/
theorem C7_map_type_total_case_insensitive_fallback :
    (∀ (s : String) (p : List String × MYSQL_DATA_TYPE),
        p ∈ types_map → pyLower s ∈ p.1 → _map_type (some s) = p.2)
    ∧ (∀ s : String, (∀ p ∈ types_map, pyLower s ∉ p.1) →
        _map_type (some s) = MYSQL_DATA_TYPE.VARCHAR)
    ∧ _map_type none = MYSQL_DATA_TYPE.VARCHAR := by
  refine ⟨?_, ?_, rfl⟩
  · intro s p hp hk
    have h := firstMatch_complete p hp (pyLower s) hk
    simp only [_map_type, h]
  · intro s h
    have h0 := firstMatch_none_of_not_mem types_map (pyLower s) h
    simp only [_map_type, h0]

/-- Witness for C7 at concrete inputs: a mixed-case mapped identifier, an
unmapped identifier, and the null input. -/
theorem C7_map_type_witness :
    _map_type (some "Integer") = MYSQL_DATA_TYPE.INT
    ∧ _map_type (some "uuid") = MYSQL_DATA_TYPE.VARCHAR
    ∧ _map_type none = MYSQL_DATA_TYPE.VARCHAR :=
  ⟨C7_map_type_total_case_insensitive_fallback.1 "Integer"
      (["integer", "int", "serial"], MYSQL_DATA_TYPE.INT) (by decide) (by decide),
   C7_map_type_total_case_insensitive_fallback.2.1 "uuid" (by decide),
   C7_map_type_total_case_insensitive_fallback.2.2⟩

/-- A cell value as it flows out of the driver and through pandas.
`vnull` is SQL NULL (also pandas NA), `vint` covers the integer values,
`vstr` strings, `vbool` booleans. -/
inductive PGValue where
  | vnull
  | vint (n : Int)
  | vstr (s : String)
  | vbool (b : Bool)
  deriving DecidableEq, Repr

abbrev Row : Type := List PGValue

abbrev Table : Type := List (List PGValue)

/-- One entry of the cursor description joined with the driver type
registry: `name` is the column name, `typeName` is `TypeInfo.name`
(e.g. int4), `regtype` is `TypeInfo.regtype` (e.g. integer) or `none`
when `pg_types.get(column.type_code)` found nothing. -/
structure ColumnDesc where
  name : String
  typeName : String
  regtype : Option String
  deriving DecidableEq, Repr, Inhabited

/-- The `expected_dtype` assignment of `_make_table_response`: integer
family columns get the nullable Int64 dtype, boolean columns the
nullable boolean dtype, everything else keeps the inferred dtype. -/
inductive NullableDtype where
  | int64Nullable
  | booleanNullable
  deriving DecidableEq, Repr

def expected_dtype (t : MYSQL_DATA_TYPE) : Option NullableDtype :=
  if t = MYSQL_DATA_TYPE.SMALLINT ∨ t = MYSQL_DATA_TYPE.INT ∨ t = MYSQL_DATA_TYPE.MEDIUMINT
      ∨ t = MYSQL_DATA_TYPE.BIGINT ∨ t = MYSQL_DATA_TYPE.TINYINT then
    some NullableDtype.int64Nullable
  else if t = MYSQL_DATA_TYPE.BOOL ∨ t = MYSQL_DATA_TYPE.BOOLEAN then
    some NullableDtype.booleanNullable
  else
    none

/-- Value of one cell of a pandas Series built with an explicit nullable
dtype: NULL stays missing (NA), integers stay themselves, booleans
coerce to 0/1 under Int64 and integers to a truth value under boolean. -/
def seriesCell : Option NullableDtype → PGValue → PGValue
  | some NullableDtype.int64Nullable, PGValue.vbool b => PGValue.vint (if b then 1 else 0)
  | some NullableDtype.booleanNullable, PGValue.vint n => PGValue.vbool (decide (n ≠ 0))
  | _, v => v

/-- The data frame built by `_make_table_response`: per column, the MySQL
type is derived from the regtype via `_map_type`, and the column series is
built with the corresponding nullable dtype; cell values (NULLs included)
are preserved up to the nullable coercion above. -/
def _make_table_response_df (result : Table) (desc : List ColumnDesc) : Table :=
  result.map fun row =>
    (List.range desc.length).map fun i =>
      seriesCell (expected_dtype (_map_type ((desc.getD i default).regtype)))
        (row.getD i PGValue.vnull)

/-- The list of MySQL types computed by `_make_table_response`. -/
def _make_table_response_types (desc : List ColumnDesc) : List MYSQL_DATA_TYPE :=
  desc.map fun c => _map_type c.regtype

namespace CastDtypes

/-- The local `types_map` of `_cast_dtypes`: driver type name to target
numpy dtype string. -/
def types_map : List (String × String) :=
  [ ("int2", "int16"),
    ("int4", "int32"),
    ("int8", "int64"),
    ("numeric", "float64"),
    ("float4", "float32"),
    ("float8", "float64") ]

/-- pandas dtype inference for a column of raw driver values, at the
granularity `_cast_dtypes` cares about: a column is numeric (int64) when
every cell is an integer, boolean when every cell is a boolean, and
object as soon as it holds a NULL, a string, or mixed kinds. -/
inductive Dtype where
  | int64Inferred
  | boolInferred
  | objectDtype
  deriving DecidableEq, Repr

def inferDtype (col : List PGValue) : Dtype :=
  if col ≠ [] ∧ col.all fun v => match v with | PGValue.vint _ => true | _ => false then
    Dtype.int64Inferred
  else if col ≠ [] ∧ col.all fun v => match v with | PGValue.vbool _ => true | _ => false then
    Dtype.boolInferred
  else
    Dtype.objectDtype

/-- The `col.fillna(0)` call: NULLs become integer zero. -/
def fillna0 : PGValue → PGValue
  | PGValue.vnull => PGValue.vint 0
  | v => v

/-- numpy astype to a numeric dtype on one object-column cell: integers
survive, booleans coerce to 0/1, strings make the whole cast raise
ValueError (modelled by `none`; NULLs were removed by fillna first). -/
def astypeNumericCell : PGValue → Option PGValue
  | PGValue.vint n => some (PGValue.vint n)
  | PGValue.vbool b => some (PGValue.vint (if b then 1 else 0))
  | PGValue.vstr _ => none
  | PGValue.vnull => none

/-- One iteration of the `_cast_dtypes` column loop: only object-dtype
columns whose driver type name is in the local `types_map` are touched;
those are filled with 0 for NULL and cast, and a ValueError from the cast
is caught, leaving the column unchanged. -/
def castColumn (col : List PGValue) (d : ColumnDesc) : List PGValue :=
  if inferDtype col = Dtype.objectDtype then
    match (types_map.lookup d.typeName) with
    | some _target =>
      let filled := col.map fillna0
      match filled.mapM astypeNumericCell with
      | some newCol => newCol
      | none => col
    | none => col
  else col

end CastDtypes

/-- `_cast_dtypes(df, description)`: every column of the frame is run
through the cast loop; the frame is rebuilt row-major. -/
def _cast_dtypes (rows : Table) (desc : List ColumnDesc) : Table :=
  let cols := (List.range desc.length).map fun j =>
    CastDtypes.castColumn (rows.map fun r => r.getD j PGValue.vnull) (desc.getD j default)
  (List.range rows.length).map fun i =>
    cols.map fun c => c.getD i PGValue.vnull

/-- The response kinds of HandlerResponse. -/
inductive RESPONSE_TYPE where
  | OK
  | TABLE
  | ERROR
  deriving DecidableEq, Repr

/-- The slice of HandlerResponse that the handler populates. -/
structure Response where
  resp_type : RESPONSE_TYPE
  data_frame : Option Table
  affected_rows : Option Int
  mysql_types : Option (List MYSQL_DATA_TYPE)
  error_code : Option Nat
  error_message : Option String
  deriving DecidableEq, Repr

/-- The full `_make_table_response(result, cursor)` call. -/
def _make_table_response (result : Table) (desc : List ColumnDesc) (rowcount : Int) : Response :=
  { resp_type := RESPONSE_TYPE.TABLE,
    data_frame := some (_make_table_response_df result desc),
    affected_rows := some rowcount,
    mysql_types := some (_make_table_response_types desc),
    error_code := none,
    error_message := none }

/-- Database-side actions a handler call performs, in order, on its
connection; recorded so that commit/rollback/close discipline can be
stated. -/
inductive DBAction where
  | executeQuery
  | fetchRows
  | yieldBatch
  | commit
  | rollback
  | disconnect
  deriving DecidableEq, Repr

/-- The handler state that `native_query` reads and writes. -/
structure HandlerState where
  is_connected : Bool
  deriving DecidableEq, Repr

/-- Outcome of the `cur.execute`/`cur.executemany` call, as seen by the
handler: a command with no result set (`pgresult` status COMMAND_OK or
no pgresult), a result set together with the cursor description, or a
raised exception with its message. -/
inductive ExecOutcome where
  | commandOk (rowcount : Int)
  | resultSet (rows : Table) (desc : List ColumnDesc) (rowcount : Int)
  | raised (msg : String)

/-- `native_query(query)`: remembers whether it has to close the
connection afterwards (`need_to_close = not self.is_connected`), connects,
runs the statement; on success it builds an OK or TABLE response and
commits, on any raised exception it builds an ERROR response with the
message and rolls back — the exception is caught, not re-raised; finally
it disconnects exactly when it opened the connection itself.  Returns the
new handler state, the connection action trace, and the response.
Connection establishment is assumed to succeed (its failure propagates
and is outside this model). -/
def native_query (st : HandlerState) (outcome : ExecOutcome) :
    HandlerState × List DBAction × Response :=
  let need_to_close := !st.is_connected
  let stConnected : HandlerState := { is_connected := true }
  let bodyResult : List DBAction × Response :=
    match outcome with
    | ExecOutcome.commandOk rc =>
        ([DBAction.executeQuery, DBAction.commit],
         { resp_type := RESPONSE_TYPE.OK, data_frame := none, affected_rows := some rc,
           mysql_types := none, error_code := none, error_message := none })
    | ExecOutcome.resultSet rows desc rc =>
        ([DBAction.executeQuery, DBAction.fetchRows, DBAction.commit],
         _make_table_response rows desc rc)
    | ExecOutcome.raised msg =>
        ([DBAction.executeQuery, DBAction.rollback],
         { resp_type := RESPONSE_TYPE.ERROR, data_frame := none, affected_rows := none,
           mysql_types := none, error_code := some 0, error_message := some msg })
  if need_to_close then
    ({ is_connected := false }, bodyResult.1 ++ [DBAction.disconnect], bodyResult.2)
  else
    (stConnected, bodyResult.1, bodyResult.2)

/-- The `while True: result = cur.fetchmany(fetch_size)` loop of
`query_stream`, as the list of fetched raw batches.  The fuel argument
bounds the iteration count (the loop runs at most one step per remaining
row plus the final empty fetch); psycopg replaces a zero size by the
cursor arraysize, whose default is 1. -/
def fetchManyLoop : Nat → Nat → Table → List Table
  | 0, _, _ => []
  | fuel + 1, size, remaining =>
    let batch := remaining.take size
    if batch.isEmpty then []
    else batch :: fetchManyLoop fuel size (remaining.drop size)

/-- The raw (pre-cast) batches fetched by `query_stream` for a result of
`rows` with the given fetch size. -/
def rawBatches (rows : Table) (fetch_size : Nat) : List Table :=
  let size := if fetch_size = 0 then 1 else fetch_size
  fetchManyLoop (rows.length + 1) size rows

/-- The data frames yielded by `query_stream(query, fetch_size)` on a
query whose result set is `rows` with cursor description `desc`: each
fetched batch is framed and passed through `_cast_dtypes`. -/
def query_stream_batches (rows : Table) (desc : List ColumnDesc) (fetch_size : Nat) :
    List Table :=
  (rawBatches rows fetch_size).map fun batch => _cast_dtypes batch desc

/-- How a `query_stream` generator run ends: fully drained by the caller,
closed/abandoned by the caller after some yields, or aborted by a raised
exception in `cur.execute`. -/
inductive StreamExit where
  | completed
  | abandoned (afterBatches : Nat)
  | execRaised (msg : String)

/-- Boolean test for the transaction-control actions. -/
def isTxnAction (a : DBAction) : Bool :=
  a = DBAction.commit || a = DBAction.rollback

/-- The connection action trace of one `query_stream` run on a result set
of `rows` with the given fetch size.  The generator body holds the
`try ... finally connection.rollback()` of the source: a drained run
executes, yields every batch, commits, then still rolls back in the
finally block, and disconnects if the handler had no connection before;
an abandoned run sees GeneratorExit at a yield, so only the finally
rollback runs after the yields already produced, and the trailing
disconnect is skipped because the exception propagates; a run whose
execute raises performs only the finally rollback. -/
def query_stream_trace (rows : Table) (fetch_size : Nat) (ex : StreamExit)
    (wasConnected : Bool) : List DBAction :=
  match ex with
  | StreamExit.execRaised _ => [DBAction.executeQuery, DBAction.rollback]
  | StreamExit.completed =>
      [DBAction.executeQuery]
      ++ List.replicate (rawBatches rows fetch_size).length DBAction.yieldBatch
      ++ [DBAction.commit, DBAction.rollback]
      ++ (if wasConnected then [] else [DBAction.disconnect])
  | StreamExit.abandoned k =>
      [DBAction.executeQuery]
      ++ List.replicate (min k (rawBatches rows fetch_size).length) DBAction.yieldBatch
      ++ [DBAction.rollback]

/-- The statements `subscribe` runs, in order, while installing the
trigger machinery (the column probe only when watched columns were
given). -/
inductive SubStep where
  | probeColumns
  | createFunction
  | createTrigger
  | commitInstall
  | listenChannel
  deriving DecidableEq, Repr

/-- Actions of `subscribe` on its dedicated connection. -/
inductive SubAction where
  | connectDedicated
  | runStep (s : SubStep)
  | addNotifyHandler
  | pollOnce
  | sleepInterval
  | dropTriggerStmt
  | dropFunctionStmt
  | commitCleanup
  | closeConnection
  deriving DecidableEq, Repr

/-- How the poll loop of `subscribe` ends: the stop event is observed at
the top of an iteration, or the trivial poll statement raises. -/
inductive LoopEnd where
  | cancelled
  | pollRaised (msg : String)
  deriving DecidableEq, Repr

/-- Environment of one `subscribe` run: which installation statement (if
any) raises — with its message — and how the poll loop ends after how
many completed iterations.  The dedicated connect and the cleanup
statements themselves are assumed to succeed. -/
structure SubscribeEnv where
  installFailure : Option (SubStep × String)
  loopIters : Nat
  loopEnd : LoopEnd

/-- The trigger/function/channel name derived by `subscribe`:
`mdb_notify_<table>` and, when columns are watched, an underscore-joined
tail holding the members of `set(columns)` in the iteration order the
set happens to produce.  CPython set iteration order over strings is
hash-randomized and unspecified, so the order is a parameter here: any
permutation of the distinct watched columns is an admissible value. -/
def subscribe_trigger_name (table : String) (columnsOrder : List String) : String :=
  if columnsOrder.isEmpty then "mdb_notify_" ++ table
  else "mdb_notify_" ++ table ++ "_" ++ String.intercalate "_" columnsOrder

/-- The installation statements in source order. -/
def installSteps (columnsOrder : List String) : List SubStep :=
  (if columnsOrder.isEmpty then [] else [SubStep.probeColumns])
  ++ [SubStep.createFunction, SubStep.createTrigger, SubStep.commitInstall,
      SubStep.listenChannel]

/-- Runs the installation statements until one raises: returns the trace
(the raising statement included, since it was attempted) and the error
message if one raised. -/
def runInstall : List SubStep → Option (SubStep × String) → List SubAction × Option String
  | [], _ => ([], none)
  | s :: rest, failAt =>
    match failAt with
    | some (fs, msg) =>
        if fs = s then ([SubAction.runStep s], some msg)
        else
          let tail := runInstall rest failAt
          (SubAction.runStep s :: tail.1, tail.2)
    | none =>
        let tail := runInstall rest none
        (SubAction.runStep s :: tail.1, tail.2)

/-- The poll loop trace: each completed iteration checks the stop event,
polls and sleeps; a cancelled loop then simply returns, a loop ended by a
raising poll performs that final raising poll. -/
def loopActions : Nat → LoopEnd → List SubAction
  | 0, LoopEnd.cancelled => []
  | 0, LoopEnd.pollRaised _ => [SubAction.pollOnce]
  | n + 1, e => SubAction.pollOnce :: SubAction.sleepInterval :: loopActions n e

/-- The cleanup block in the `finally` of the poll loop: drop trigger,
drop function, commit, close the dedicated connection. -/
def cleanupActions : List SubAction :=
  [SubAction.dropTriggerStmt, SubAction.dropFunctionStmt, SubAction.commitCleanup,
   SubAction.closeConnection]

/-- One `subscribe` run over its environment: connect the dedicated
autocommit connection, run the installation statements — a raising
statement aborts the call then and there, before the `try` block, so no
cleanup and no close happen — then attach the notify handler and run the
poll loop inside `try ... finally cleanup`: both loop ends reach the
cleanup block.  Returns the action trace and the overall outcome. -/
def subscribe_run (columnsOrder : List String) (env : SubscribeEnv) :
    List SubAction × Except String Unit :=
  let install := runInstall (installSteps columnsOrder) env.installFailure
  match install.2 with
  | some msg => (SubAction.connectDedicated :: install.1, Except.error msg)
  | none =>
      let loopActs := loopActions env.loopIters env.loopEnd
      let result : Except String Unit :=
        match env.loopEnd with
        | LoopEnd.cancelled => Except.ok ()
        | LoopEnd.pollRaised msg => Except.error msg
      (SubAction.connectDedicated :: install.1
        ++ [SubAction.addNotifyHandler] ++ loopActs ++ cleanupActions, result)

/-- Python exceptions relevant to `process_event`. -/
inductive PyExc where
  | jsonDecodeError (msg : String)
  | typeError (msg : String)
  deriving DecidableEq, Repr

/-- The class object named in the `except` clause of `process_event`:
`json.JSONDecoder`, the decoder class — not an exception type. -/
inductive PyClassVal where
  | jsonDecoderClass
  deriving DecidableEq, Repr

/-- Whether the class object is a BaseException subclass (Python only
accepts those in an `except` clause). -/
def isExceptionClass : PyClassVal → Bool
  | PyClassVal.jsonDecoderClass => false

/-- Whether an exception instance is an instance of the class (no
exception is an instance of the decoder class). -/
def excInstanceOf : PyExc → PyClassVal → Bool
  | _, PyClassVal.jsonDecoderClass => false

/-- A decoded notification payload: JSON object mapping column name to
new value. -/
abbrev DecodedRow : Type := List (String × PGValue)

def catchingNonExceptionMsg : String :=
  "catching classes that do not inherit from BaseException is not allowed"

/-- `process_event(event)` given the outcome of `json.loads(event.payload)`
and the watched-column set (as its member list; empty list for an empty
set).  Python evaluates the `except json.JSONDecoder:` clause only when
the body raised; since the named class is not a BaseException subclass,
that evaluation itself raises TypeError instead of handling anything.
On a decoded row the callback fires iff the set is empty or intersects
the row keys; `.ok (some row)` is a callback invocation, `.ok none` a
silent drop, `.error` an exception propagating out of the handler. -/
def process_event (loads_result : Except PyExc DecodedRow) (columns : List String) :
    Except PyExc (Option DecodedRow) :=
  match loads_result with
  | Except.error e =>
      if isExceptionClass PyClassVal.jsonDecoderClass then
        if excInstanceOf e PyClassVal.jsonDecoderClass then Except.ok none
        else Except.error e
      else Except.error (PyExc.typeError catchingNonExceptionMsg)
  | Except.ok row =>
      if columns.isEmpty || columns.any (fun c => (row.map Prod.fst).contains c) then
        Except.ok (some row)
      else Except.ok none

/-- A Python argument that is either a string or some non-string value
with the given truthiness. -/
inductive PyArg where
  | pystr (s : String)
  | nonString (truthy : Bool)
  deriving DecidableEq, Repr

/-- Python truthiness of the argument (empty strings are falsy). -/
def pyTruthy : PyArg → Bool
  | PyArg.pystr s => !s.isEmpty
  | PyArg.nonString t => t

/-- `isinstance(x, str)`. -/
def isInstanceStr : PyArg → Bool
  | PyArg.pystr _ => true
  | PyArg.nonString _ => false

/-- The information_schema.columns query `get_columns` builds: the table
name interpolated into the filter, and either a quoted schema literal or
`current_schema()`. -/
structure ColumnsQuery where
  table_name : String
  schema_literal : Option String
  deriving DecidableEq, Repr

/-- `get_columns(table_name, schema_name)` up to the database call: a
falsy or non-string table name raises ValueError before any query is
built or issued; otherwise the columns query is built and exactly one
statement is executed via `native_query`. -/
def get_columns (table_name : PyArg) (schema_name : Option String) :
    Except String (ColumnsQuery × List DBAction) :=
  if !(pyTruthy table_name) || !(isInstanceStr table_name) then
    Except.error "Invalid table name provided."
  else
    match table_name with
    | PyArg.pystr s =>
        Except.ok ({ table_name := s, schema_literal := schema_name },
                   [DBAction.executeQuery])
    | PyArg.nonString _ => Except.error "Invalid table name provided."

theorem runInstall_none (l : List SubStep) :
    runInstall l none = (l.map SubAction.runStep, none) := by
  induction l with
  | nil => rfl
  | cons s rest ih => simp [runInstall, ih]

/-- C1 counterexample: watched column a, the CREATE TRIGGER statement
raises.  The function had already been installed (on an autocommit
connection), the call aborts, and neither drop statement nor the close
of the dedicated connection appears in the trace: installation errors
happen before the `try`/`finally` of the poll loop, so the partially
installed function outlives the subscription and the connection leaks. -/
theorem C1_install_error_skips_cleanup_cex :
    ((subscribe_run ["a"]
        { installFailure := some (SubStep.createTrigger, "permission denied"),
          loopIters := 0, loopEnd := LoopEnd.cancelled }).2
      = Except.error "permission denied")
    ∧ SubAction.runStep SubStep.createFunction
        ∈ (subscribe_run ["a"]
            { installFailure := some (SubStep.createTrigger, "permission denied"),
              loopIters := 0, loopEnd := LoopEnd.cancelled }).1
    ∧ SubAction.dropTriggerStmt
        ∉ (subscribe_run ["a"]
            { installFailure := some (SubStep.createTrigger, "permission denied"),
              loopIters := 0, loopEnd := LoopEnd.cancelled }).1
    ∧ SubAction.dropFunctionStmt
        ∉ (subscribe_run ["a"]
            { installFailure := some (SubStep.createTrigger, "permission denied"),
              loopIters := 0, loopEnd := LoopEnd.cancelled }).1
    ∧ SubAction.closeConnection
        ∉ (subscribe_run ["a"]
            { installFailure := some (SubStep.createTrigger, "permission denied"),
              loopIters := 0, loopEnd := LoopEnd.cancelled }).1 := by
  refine ⟨rfl, by decide, by decide, by decide, by decide⟩

/-- C1 amended: once installation has succeeded, every exit of the poll
loop — cancellation via the stop event or an error raised inside the loop
— runs the cleanup block: the trace ends with drop trigger, drop
function, commit, close of the dedicated connection, in that order. -/
theorem C1_loop_exit_runs_cleanup (columnsOrder : List String) (iters : Nat) (e : LoopEnd) :
    ∃ front : List SubAction,
      (subscribe_run columnsOrder
          { installFailure := none, loopIters := iters, loopEnd := e }).1
        = front ++ [SubAction.dropTriggerStmt, SubAction.dropFunctionStmt,
            SubAction.commitCleanup, SubAction.closeConnection] := by
  refine ⟨SubAction.connectDedicated ::
    ((installSteps columnsOrder).map SubAction.runStep
      ++ [SubAction.addNotifyHandler] ++ loopActions iters e), ?_⟩
  simp [subscribe_run, runInstall_none, cleanupActions]

/-- Witness for C1's amended theorem at a concrete run: one watched
column, two poll iterations, then cancellation. -/
theorem C1_loop_exit_runs_cleanup_witness :
    ∃ front : List SubAction,
      (subscribe_run ["a"]
          { installFailure := none, loopIters := 2, loopEnd := LoopEnd.cancelled }).1
        = front ++ [SubAction.dropTriggerStmt, SubAction.dropFunctionStmt,
            SubAction.commitCleanup, SubAction.closeConnection] :=
  C1_loop_exit_runs_cleanup ["a"] 2 LoopEnd.cancelled

/-- C2: code-bug evaluation.  On a payload that is not valid JSON,
`json.loads` raises JSONDecodeError, but the handler's clause
`except json.JSONDecoder:` names the decoder class, which is not a
BaseException subclass, so evaluating the clause raises TypeError: the
event is not silently dropped, the callback is not invoked, and the
exception propagates out of `process_event` (terminating the poll loop
that delivers notifications). -/
theorem C2_decode_error_raises_type_error :
    process_event
        (Except.error (PyExc.jsonDecodeError "Expecting value: line 1 column 1 (char 0)"))
        ["a"]
      = Except.error (PyExc.typeError catchingNonExceptionMsg) := by
  rfl

/-- C3 counterexample: for table t and watched columns given as a, b, the
list b, a is a permutation of the distinct columns, hence an admissible
CPython iteration order for `set(columns)` (string hashing is randomized,
so no particular order — in particular not the sorted one — is
guaranteed).  Under that order the derived name is mdb_notify_t_b_a,
which differs from the name derived under the order a, b: the code never
sorts, so the name is not the spec's sorted name and is not a function of
the column set alone. -/
theorem C3_unsorted_set_order_cex :
    List.Perm ["b", "a"] (List.dedup ["a", "b"])
    ∧ subscribe_trigger_name "t" ["b", "a"] = "mdb_notify_t_b_a"
    ∧ subscribe_trigger_name "t" ["b", "a"] ≠ subscribe_trigger_name "t" ["a", "b"] := by
  decide

/-- C3 amended: with no watched columns the derived name is exactly
mdb_notify_<table>; with watched columns it is mdb_notify_<table>_
followed by the distinct watched columns — each watched column appears,
and only watched columns appear — joined by underscores in the set's
iteration order, which the code does not sort. -/
theorem C3_name_from_set_iteration_order (table : String) (cols : List String)
    (order : List String) (h : order.Perm cols.dedup) :
    subscribe_trigger_name table [] = "mdb_notify_" ++ table
    ∧ (order ≠ [] →
        subscribe_trigger_name table order
          = "mdb_notify_" ++ table ++ "_" ++ String.intercalate "_" order)
    ∧ ∀ c, c ∈ order ↔ c ∈ cols := by
  refine ⟨by simp [subscribe_trigger_name], ?_, ?_⟩
  · intro hne
    simp [subscribe_trigger_name, hne]
  · intro c
    exact h.mem_iff.trans List.mem_dedup

/-- Witness for C3's amended theorem at table t, columns a, b, iteration
order b, a. -/
theorem C3_name_from_set_iteration_order_witness :
    subscribe_trigger_name "t" [] = "mdb_notify_" ++ "t"
    ∧ ((["b", "a"] : List String) ≠ [] →
        subscribe_trigger_name "t" ["b", "a"]
          = "mdb_notify_" ++ "t" ++ "_" ++ String.intercalate "_" ["b", "a"])
    ∧ ∀ c, c ∈ (["b", "a"] : List String) ↔ c ∈ (["a", "b"] : List String) :=
  C3_name_from_set_iteration_order "t" ["a", "b"] ["b", "a"] (by decide)

/-- C4: code-bug evaluation on a one-row, one-column int4 result whose
single value is SQL NULL, with batch size 1.  Streaming yields one batch
(the batch count matches the claim) but `_cast_dtypes` fills the NULL
with 0 before casting, so the concatenated stream holds integer 0 where
the wholesale materialization via `native_query`/`_make_table_response`
holds a preserved NULL (pandas NA in the nullable Int64 column): the two
tables differ. -/
theorem C4_stream_null_fillna_divergence :
    ((query_stream_batches [[PGValue.vnull]]
        [{ name := "a", typeName := "int4", regtype := some "integer" }] 1).flatten
      = [[PGValue.vint 0]])
    ∧ ((native_query { is_connected := true }
          (ExecOutcome.resultSet [[PGValue.vnull]]
            [{ name := "a", typeName := "int4", regtype := some "integer" }] 1)).2.2.data_frame
      = some [[PGValue.vnull]])
    ∧ (query_stream_batches [[PGValue.vnull]]
        [{ name := "a", typeName := "int4", regtype := some "integer" }] 1).length = 1
    ∧ ([[PGValue.vint 0]] : Table) ≠ [[PGValue.vnull]] := by
  refine ⟨by decide, by decide, by decide, by decide⟩

/-- C5: when execution of the statement raises, `native_query` rolls the
transaction back and returns an ERROR-kind response carrying the error
message; the trace holds no commit, and the call returns normally (the
return type of the embedding is a plain response, reflecting that the
`except Exception` clause catches every execution error instead of
re-raising it). -/
theorem C5_exec_error_rolled_back_error_response (st : HandlerState) (msg : String) :
    (native_query st (ExecOutcome.raised msg)).2.2.resp_type = RESPONSE_TYPE.ERROR
    ∧ (native_query st (ExecOutcome.raised msg)).2.2.error_message = some msg
    ∧ DBAction.rollback ∈ (native_query st (ExecOutcome.raised msg)).2.1
    ∧ DBAction.commit ∉ (native_query st (ExecOutcome.raised msg)).2.1 := by
  cases st with
  | mk ic => cases ic <;> simp [native_query]

/-- Witness for C5 on an already-connected handler and a concrete
message. -/
theorem C5_exec_error_rolled_back_error_response_witness :
    (native_query { is_connected := true }
        (ExecOutcome.raised "syntax error")).2.2.resp_type = RESPONSE_TYPE.ERROR
    ∧ (native_query { is_connected := true }
        (ExecOutcome.raised "syntax error")).2.2.error_message = some "syntax error"
    ∧ DBAction.rollback
        ∈ (native_query { is_connected := true } (ExecOutcome.raised "syntax error")).2.1
    ∧ DBAction.commit
        ∉ (native_query { is_connected := true } (ExecOutcome.raised "syntax error")).2.1 :=
  C5_exec_error_rolled_back_error_response { is_connected := true } "syntax error"

/-- C6: `native_query` leaves `is_connected` as it found it, on the
success paths and on the caught-execution-error path alike: a handler
that was connected stays connected, and a call that had to open the
connection closes it again (the trace then ends with the disconnect). -/
theorem C6_native_query_preserves_is_connected (st : HandlerState) (outcome : ExecOutcome) :
    (native_query st outcome).1.is_connected = st.is_connected
    ∧ (st.is_connected = false →
        (native_query st outcome).2.1.getLast? = some DBAction.disconnect) := by
  cases st with
  | mk ic => cases ic <;> cases outcome <;> simp [native_query]

/-- Witness for C6: a previously disconnected handler running into an
execution error is disconnected again afterwards. -/
theorem C6_native_query_preserves_is_connected_witness :
    (native_query { is_connected := false } (ExecOutcome.raised "boom")).1.is_connected
      = ({ is_connected := false } : HandlerState).is_connected
    ∧ (({ is_connected := false } : HandlerState).is_connected = false →
        (native_query { is_connected := false }
          (ExecOutcome.raised "boom")).2.1.getLast? = some DBAction.disconnect) :=
  C6_native_query_preserves_is_connected { is_connected := false } (ExecOutcome.raised "boom")

/-- C8: on a decoded event, the callback fires unconditionally when the
watched-column set is empty, and otherwise exactly when some watched
column occurs among the decoded row's keys; in either case the handler
returns normally (the event is delivered or silently skipped, never an
error). -/
theorem C8_watched_column_filter (row : DecodedRow) (columns : List String) :
    (process_event (Except.ok row) columns = Except.ok (some row)
      ↔ (columns = [] ∨ ∃ c ∈ columns, ∃ v, (c, v) ∈ row))
    ∧ (process_event (Except.ok row) columns = Except.ok (some row)
        ∨ process_event (Except.ok row) columns = Except.ok none) := by
  have hiff : (columns.isEmpty || columns.any fun c => (row.map Prod.fst).contains c) = true
      ↔ (columns = [] ∨ ∃ c ∈ columns, ∃ v, (c, v) ∈ row) := by
    simp only [Bool.or_eq_true, List.isEmpty_iff, List.any_eq_true, List.contains,
      List.elem_iff, List.mem_map]
    constructor
    · rintro (h | ⟨c, hc, ⟨p, hp, rfl⟩⟩)
      · exact Or.inl h
      · exact Or.inr ⟨p.1, hc, p.2, by simpa using hp⟩
    · rintro (h | ⟨c, hc, v, hv⟩)
      · exact Or.inl h
      · exact Or.inr ⟨c, hc, ⟨(c, v), hv, rfl⟩⟩
  constructor
  · simp only [process_event]
    by_cases hb : (columns.isEmpty || columns.any fun c => (row.map Prod.fst).contains c) = true
    · rw [if_pos hb]
      simp only [eq_self_iff_true, true_iff]
      exact hiff.mp hb
    · rw [if_neg hb]
      constructor
      · intro h
        simp at h
      · intro h
        exact absurd (hiff.mpr h) hb
  · simp only [process_event]
    by_cases hb : (columns.isEmpty || columns.any fun c => (row.map Prod.fst).contains c) = true
    · rw [if_pos hb]; exact Or.inl rfl
    · rw [if_neg hb]; exact Or.inr rfl

/-- Witness for C8 at a concrete decoded row and watched set: the row
with key a is delivered when a is watched. -/
theorem C8_watched_column_filter_witness :
    process_event (Except.ok [("a", PGValue.vint 1)]) ["a"]
      = Except.ok (some [("a", PGValue.vint 1)]) :=
  (C8_watched_column_filter [("a", PGValue.vint 1)] ["a"]).1.mpr
    (Or.inr ⟨"a", by simp, PGValue.vint 1, by simp⟩)

theorem filter_txn_replicate_yield (n : Nat) :
    (List.replicate n DBAction.yieldBatch).filter isTxnAction = [] := by
  induction n with
  | zero => rfl
  | succ n ih => simp [List.replicate_succ, List.filter_cons, isTxnAction, ih]

/-- C9: on every exit of `query_stream` — generator drained, abandoned
after any number of batches, or aborted by a raised execute — the last
transaction-control action on the connection is a rollback (on the
drained path the `finally` rollback follows the commit). -/
theorem C9_query_stream_ends_in_rollback (rows : Table) (fetch_size : Nat)
    (ex : StreamExit) (wasConnected : Bool) :
    ((query_stream_trace rows fetch_size ex wasConnected).filter isTxnAction).getLast?
      = some DBAction.rollback := by
  cases ex with
  | execRaised msg => simp [query_stream_trace, isTxnAction]
  | completed =>
      cases wasConnected <;>
        simp [query_stream_trace, isTxnAction, List.filter_append,
          filter_txn_replicate_yield]
  | abandoned k =>
      simp [query_stream_trace, isTxnAction, List.filter_append,
        filter_txn_replicate_yield]

/-- Witness for C9 on a two-row result streamed with batch size 1 and
abandoned after the first batch. -/
theorem C9_query_stream_ends_in_rollback_witness :
    ((query_stream_trace [[PGValue.vint 1], [PGValue.vint 2]] 1
        (StreamExit.abandoned 1) false).filter isTxnAction).getLast?
      = some DBAction.rollback :=
  C9_query_stream_ends_in_rollback [[PGValue.vint 1], [PGValue.vint 2]] 1
    (StreamExit.abandoned 1) false

/-- C10: `get_columns` on a falsy or non-string table name raises
ValueError with the source's message before building or issuing any
query (the error result carries no database action). -/
theorem C10_invalid_table_name_raises (v : PyArg) (schema : Option String)
    (h : pyTruthy v = false ∨ isInstanceStr v = false) :
    get_columns v schema = Except.error "Invalid table name provided." := by
  rcases h with h | h <;> simp [get_columns, h]

/-- Witness for C10 at the empty-string table name. -/
theorem C10_invalid_table_name_raises_witness :
    get_columns (PyArg.pystr "") none = Except.error "Invalid table name provided." :=
  C10_invalid_table_name_raises (PyArg.pystr "") none (Or.inl (by decide))

end PostgresHandlerVerification
